import Mathlib

/-!
Shallow embedding of `post_receive_email.py`, a git post-receive hook that
classifies each pushed reference update and sends one notification email per
update.  External collaborators (git subprocess queries, the SMTP session, the
filesystem, the clock) are modelled as oracles: structures of functions whose
outputs stand for the observable results of those external calls.  Sending an
email is modelled as producing an `Email` value in an output list; raising a
Python exception is modelled with `Option String` / `Except String` error
values.
-/

/- Configuration key constants (module-level constants of the source).
   The source names the second one `EMAILPREFIX`; it is shortened here. -/

def MAILINGLIST : String := "hooks.mailinglist"

def EMAILPFX : String := "hooks.emailprefix"

def SMTP_HOST : String := "hooks.smtp-host"

def SMTP_PORT : String := "hooks.smtp-port"

def SMTP_SENDER : String := "hooks.smtp-sender"

def SMTP_SENDER_PASSWORD : String := "hooks.smtp-sender-password"

def POST_RECEIVE_LOGFILE : String := "hooks.post-receive-logfile"

def DEBUG : String := "hooks.debug"

/-- One outgoing email, the observable effect of `Mailer.send` actually
delivering a message over SMTP (`server.send_message(email)`). -/
structure Email where
  sender : String
  reply_to : String
  to_header : String
  subject : String
  content : String
deriving DecidableEq

/-- The `Mailer` class: SMTP connection data plus the recipient list. -/
structure Mailer where
  smtp_host : String
  smtp_port : Int
  sender : String
  sender_password : String
  recipients : List String
deriving DecidableEq

/-- `Mailer.send`: returns immediately when the recipient list is empty
(no network call); otherwise builds the `EmailMessage` and delivers it over
the SMTP session.  The returned list holds the emails actually delivered. -/
def Mailer.send (m : Mailer) (subject reply_to message : String) : List Email :=
  if m.recipients.isEmpty then []
  else [{ sender := m.sender
          reply_to := reply_to
          to_header := String.intercalate ", " m.recipients
          subject := subject
          content := message }]

/-- Oracle for the git subprocess queries and the clock.  Each field gives the
observable result of the corresponding external call. -/
structure Git where
  /-- raw stdout of `git show <hash>` -/
  show_out : String → String
  /-- raw stdout of `git show --pretty=format:<fmt> -s <rev>`, keyed by (rev, fmt) -/
  show_format_out : String → String → String
  /-- raw stdout of `git rev-list --pretty <old>..<new>` -/
  rev_list_pretty_out : String → String → String
  /-- exit code of `git merge-base --is-ancestor <rev1> <rev2>` -/
  is_ancestor_code : String → String → Nat
  /-- value printed by `git rev-list --count <old>..<new>` (a count, hence `Nat`) -/
  rev_list_count : String → String → Nat
  /-- current time as rendered by `email.utils.formatdate(localtime=True)` -/
  formatdate_now : String

def git_show (g : Git) (hash : String) : String :=
  g.show_out hash

def git_show_format_str (g : Git) (rev fmt : String) : String :=
  g.show_format_out rev fmt

/-- The source returns `s[:-1]`, dropping the final character of the output. -/
def git_rev_list_range_pretty (g : Git) (old_rev new_rev : String) : String :=
  (g.rev_list_pretty_out old_rev new_rev).dropRight 1

/-- Split a character list at every character satisfying `p`, discarding
empty tokens (so: split on separator runs).  `acc` holds the current token,
reversed. -/
def split_drop_empty (p : Char → Bool) : List Char → List Char → List String
  | [], acc => if acc = [] then [] else [String.mk acc.reverse]
  | c :: rest, acc =>
    if p c then
      if acc = [] then split_drop_empty p rest []
      else String.mk acc.reverse :: split_drop_empty p rest []
    else split_drop_empty p rest (c :: acc)

/-- `l.split()`: split on runs of whitespace, producing no empty tokens. -/
def parse_post_receive_line (l : String) : List String :=
  split_drop_empty Char.isWhitespace l.data []

/-- `s.startswith(pat)`, character by character. -/
def list_starts_with : List Char → List Char → Bool
  | _, [] => true
  | [], _ :: _ => false
  | a :: as, b :: bs => a = b && list_starts_with as bs

def str_starts_with (s pat : String) : Bool :=
  list_starts_with s.data pat.data

/-- `ref.split('/')[-1]` (the text after the last `/`, the whole string when
there is none) plus the kind determined by the ref-name path. -/
def ref_type_name (ref : String) : String × String :=
  let name := String.mk (ref.data.reverse.takeWhile (fun c => c ≠ '/')).reverse
  if str_starts_with ref "refs/heads/" then ("branch", name)
  else if str_starts_with ref "refs/tags/" then ("tag", name)
  else ("unknown", name)

def is_dummy_rev (rev : String) : Bool :=
  rev = "0000000000000000000000000000000000000000"

/-- `rev[:7]` -/
def short_hash (rev : String) : String :=
  rev.take 7

def commit_subject (g : Git) (rev : String) : String :=
  git_show_format_str g rev "%s"

def commiter_email (g : Git) (rev : String) : String :=
  git_show_format_str g rev "%ce"

/-- `fmt.replace("%", "%%")`: every `%` character is doubled (single-character
pattern replacement, expressed character by character). -/
def escape_git_fmt_str (fmt : String) : String :=
  String.mk (fmt.data.flatMap fun c => if c = '%' then ['%', '%'] else [c])

/-- Process-wide configuration, one field per `config[...]` entry. -/
structure Config where
  email_pfx : String
  debug : Bool
  logfile : String
  smtp_host : String
  smtp_port : Int
  smtp_sender : String
  smtp_sender_password : String
  mailinglist : List String
deriving DecidableEq

/-- The body template handed to `git show --pretty=format:...` by
`process_new_branch`, with the (escaped) branch name interpolated. -/
def new_branch_fmt (name : String) : String :=
  "Commiter: %cn <%ce>\nDate: %cD\nNew branch: " ++ escape_git_fmt_str name
    ++ "\nCommit: %H\nSubject: %s\nNotes:\n%N"

def process_new_branch (g : Git) (rev name : String) (mailer : Mailer)
    (config : Config) : List Email :=
  let subject := config.email_pfx ++ "new branch: (" ++ name ++ ") at commit "
      ++ short_hash rev ++ ": " ++ commit_subject g rev
  let reply_to := commiter_email g rev
  let message := git_show_format_str g rev (new_branch_fmt name)
  mailer.send subject reply_to message

def process_delete_branch (g : Git) (rev name : String) (mailer : Mailer)
    (config : Config) : List Email :=
  let subject := config.email_pfx ++ "delete branch: (" ++ name ++ ")"
  let reply_to := commiter_email g rev
  let now := g.formatdate_now
  let message := "Date: " ++ now ++ "\nDeleted branch: " ++ name
  mailer.send subject reply_to message

def process_new_tag (g : Git) (rev name : String) (mailer : Mailer)
    (config : Config) : List Email :=
  let tag_commit_rev := git_show_format_str g (rev ++ "^\x7bcommit\x7d") "%H"
  let subject := config.email_pfx ++ "new tag: (" ++ name ++ ") at commit "
      ++ short_hash tag_commit_rev ++ ": " ++ commit_subject g tag_commit_rev
  let reply_to := commiter_email g tag_commit_rev
  let message := git_show g rev
  mailer.send subject reply_to message

def process_delete_tag (g : Git) (rev name : String) (mailer : Mailer)
    (config : Config) : List Email :=
  let tag_commit_rev := git_show_format_str g (rev ++ "^\x7bcommit\x7d") "%H"
  let subject := config.email_pfx ++ "delete tag: (" ++ name ++ ")"
  let reply_to := commiter_email g tag_commit_rev
  let now := g.formatdate_now
  let message := "Date: " ++ now ++ "\nDeleted tag: " ++ name
  mailer.send subject reply_to message

/-- `git merge-base --is-ancestor rev1 rev2`: exit code 0 means yes, 1 means
no, anything else raises `Exception("is_descendant_commit error")`. -/
def is_descendant_commit (g : Git) (rev1 rev2 : String) : Except String Bool :=
  let retcode := g.is_ancestor_code rev1 rev2
  if retcode = 0 then .ok true
  else if retcode = 1 then .ok false
  else .error "is_descendant_commit error"

/-- number of commits in (old_rev, new_rev] -/
def num_commits_in_range (g : Git) (old_rev new_rev : String) : Nat :=
  g.rev_list_count old_rev new_rev

/-- `process_new_commits`: the pair is (emails delivered, raised error). -/
def process_new_commits (g : Git) (old_rev new_rev branchname : String)
    (mailer : Mailer) (config : Config) : List Email × Option String :=
  let n := num_commits_in_range g old_rev new_rev
  if n = 1 then
    let subject := config.email_pfx ++ "(" ++ branchname ++ ") new commit "
        ++ short_hash new_rev ++ ": " ++ commit_subject g new_rev
    let message := git_rev_list_range_pretty g old_rev new_rev
    let reply_to := commiter_email g new_rev
    (mailer.send subject reply_to message, none)
  else if n > 0 then
    let subject := config.email_pfx ++ "(" ++ branchname ++ ") " ++ toString n
        ++ " new commits " ++ short_hash new_rev ++ ": " ++ commit_subject g new_rev
    let message := git_rev_list_range_pretty g old_rev new_rev
    let reply_to := commiter_email g new_rev
    (mailer.send subject reply_to message, none)
  else
    ([], some "process 0 new commits")

/-- The body template used by `process_forced_reset`. -/
def forced_reset_fmt (branchname : String) : String :=
  "Commiter: %cn <%ce>\nDate: %cD\nBranch: " ++ escape_git_fmt_str branchname
    ++ "\nReset to commit: %H\nSubject: %s\nNotes:\n%N"

def process_forced_reset (g : Git) (old_rev new_rev branchname : String)
    (mailer : Mailer) (config : Config) : List Email :=
  let subject := config.email_pfx ++ "(" ++ branchname ++ ") forced reset to commit "
      ++ short_hash new_rev ++ ": " ++ commit_subject g new_rev
  let message := git_show_format_str g new_rev (forced_reset_fmt branchname)
  let reply_to := commiter_email g new_rev
  mailer.send subject reply_to message

/-- The body template used by `process_forced_unknown`. -/
def forced_unknown_fmt (branchname : String) : String :=
  "Commiter: %cn <%ce>\nDate: %cD\nBranch: " ++ escape_git_fmt_str branchname
    ++ "\nMost recent commit: %H\nSubject: %s\nNotes:\n%N"

def process_forced_unknown (g : Git) (old_rev new_rev branchname : String)
    (mailer : Mailer) (config : Config) : List Email :=
  let subject := config.email_pfx ++ "(" ++ branchname ++ ") forced rewrite to commit "
      ++ short_hash new_rev ++ ": " ++ commit_subject g new_rev
  let message := git_show_format_str g new_rev (forced_unknown_fmt branchname)
  let reply_to := commiter_email g new_rev
  mailer.send subject reply_to message

def process_commit_range (g : Git) (old_rev new_rev branchname : String)
    (mailer : Mailer) (config : Config) : List Email × Option String :=
  match is_descendant_commit g old_rev new_rev with
  | .error e => ([], some e)
  | .ok true => process_new_commits g old_rev new_rev branchname mailer config
  | .ok false =>
    match is_descendant_commit g new_rev old_rev with
    | .error e => ([], some e)
    | .ok true => (process_forced_reset g old_rev new_rev branchname mailer config, none)
    | .ok false => (process_forced_unknown g old_rev new_rev branchname mailer config, none)

/-- The body of the source's per-line loop, after the line has been unpacked
into `(old_rev, new_rev, ref_name)`: classify the ref and dispatch.  A tag
update whose two ids are both non-dummy falls through both `if` arms of the
source's tag branch: no action is taken and no error is raised. -/
def process_line (g : Git) (mailer : Mailer) (old_rev new_rev ref_name : String)
    (config : Config) : List Email × Option String :=
  let rt := ref_type_name ref_name
  if rt.1 = "branch" then
    if is_dummy_rev old_rev then
      (process_new_branch g new_rev rt.2 mailer config, none)
    else if is_dummy_rev new_rev then
      (process_delete_branch g old_rev rt.2 mailer config, none)
    else
      process_commit_range g old_rev new_rev rt.2 mailer config
  else if rt.1 = "tag" then
    if is_dummy_rev old_rev then
      (process_new_tag g new_rev rt.2 mailer config, none)
    else if is_dummy_rev new_rev then
      (process_delete_tag g old_rev rt.2 mailer config, none)
    else
      ([], none)
  else
    ([], none)

/-- The per-push loop.  Each line is parsed and dispatched; an exception (a
`some` error) aborts the loop, leaving later lines unprocessed.  Unpacking a
line into three variables raises `ValueError` when the whitespace-split does
not yield exactly three tokens. -/
def post_receive (g : Git) (mailer : Mailer) (lines : List String)
    (config : Config) : List Email × Option String :=
  match lines with
  | [] => ([], none)
  | line :: rest =>
    match parse_post_receive_line line with
    | [old_rev, new_rev, ref_name] =>
      match process_line g mailer old_rev new_rev ref_name config with
      | (es, none) =>
        match post_receive g mailer rest config with
        | (es2, err2) => (es ++ es2, err2)
      | (es, some e) => (es, some e)
    | toks =>
      ([], some (if toks.length < 3
                 then "ValueError: not enough values to unpack"
                 else "ValueError: too many values to unpack"))

/-- `git_config_get(name, default="")`: runs `git config --get name` and
returns its stdout minus the final character.  `config_out` is the raw stdout
oracle (`"<value>\n"` when the key is set, `""` when absent).  NOTE: the
source declares the `default` parameter but its body never uses it — the
embedding keeps that behaviour, hence the unused `defaultVal`. -/
def git_config_get (config_out : String → String) (name : String)
    (defaultVal : String) : String :=
  (config_out name).dropRight 1

/-- `bool_from_str`: `s and s[0] not in 'fF0'` under Python truthiness
(`""` is falsy, so an empty string yields false). -/
def bool_from_str (s : String) : Bool :=
  if s = "" then false
  else !(s.front = 'f' || s.front = 'F' || s.front = '0')

/-- Lines 279-280 of the source: append one space to a non-empty prefix that
does not already end in a space. -/
def normalize_mail_pfx (s : String) : String :=
  if s ≠ "" ∧ s.back ≠ ' ' then s ++ " " else s

/-- `re.split(' *, *| +', v)` followed by discarding empty tokens: the
separator characters are commas and spaces; splitting at each such character
and then filtering out empty tokens yields the same token list as the regex
split followed by the source's filter. -/
def split_recipients (v : String) : List String :=
  split_drop_empty (fun c => c = ' ' || c = ',') v.data []

/-- `int(v)` for a decimal string: optional sign followed by digits; any
other shape raises `ValueError`, modelled as `none`. -/
def py_int_of_str (s : String) : Option Int :=
  let digits : List Char → Option Nat := fun ds =>
    if ds = [] then none
    else ds.foldl (fun acc c => acc.bind fun n =>
      if c.isDigit then some (n * 10 + (c.toNat - '0'.toNat)) else none) (some 0)
  match s.data with
  | '-' :: ds => (digits ds).map (fun n => -(n : Int))
  | '+' :: ds => (digits ds).map (fun n => (n : Int))
  | ds => (digits ds).map (fun n => (n : Int))

/-- `get_config_variables`: resolves every key, normalizes the mail prefix,
and raises `RuntimeError` when a required key is unset (empty).  `int(v)` for
the port is modelled with `py_int_of_str`. -/
def get_config_variables (config_out : String → String) : Except String Config :=
  let pfx := normalize_mail_pfx (git_config_get config_out EMAILPFX "")
  let debug := bool_from_str (git_config_get config_out DEBUG "")
  let logfile := git_config_get config_out POST_RECEIVE_LOGFILE "/dev/null"
  let host := git_config_get config_out SMTP_HOST ""
  if host = "" then .error ("This script needs " ++ SMTP_HOST ++ " to work.")
  else
    let portstr := git_config_get config_out SMTP_PORT ""
    if portstr = "" then .error ("This script needs " ++ SMTP_PORT ++ " to work.")
    else
      match py_int_of_str portstr with
      | none => .error ("ValueError: invalid literal for int(): " ++ portstr)
      | some port =>
        let sender := git_config_get config_out SMTP_SENDER ""
        if sender = "" then .error ("This script needs " ++ SMTP_SENDER ++ " to work.")
        else
          let pw := git_config_get config_out SMTP_SENDER_PASSWORD ""
          if pw = "" then
            .error ("This script needs " ++ SMTP_SENDER_PASSWORD ++ " to work.")
          else
            let recips := split_recipients (git_config_get config_out MAILINGLIST "")
            .ok { email_pfx := pfx
                  debug := debug
                  logfile := logfile
                  smtp_host := host
                  smtp_port := port
                  smtp_sender := sender
                  smtp_sender_password := pw
                  mailinglist := recips }

/-- Oracle environment for one run of `main`: the config lookup, whether
`open(path, 'a')` succeeds for a given path, the lines read from stdin, the
git oracle, and the current time as rendered by `time.strftime('%Y-%m-%d %X')`. -/
structure Env where
  config_out : String → String
  open_append_ok : String → Bool
  stdin_lines : List String
  git : Git
  strftime_now : String

/-- The body of `main`'s `try` block: read stdin, resolve config (may raise),
optionally write the debug log, build the mailer, run `post_receive`.
Returns (log lines written, emails sent, raised error if any). -/
def main_body (env : Env) : List String × List Email × Option String :=
  match get_config_variables env.config_out with
  | .error e => ([], [], some e)
  | .ok config =>
    let debug_log := if config.debug then env.strftime_now :: env.stdin_lines else []
    let mailer : Mailer :=
      { smtp_host := config.smtp_host
        smtp_port := config.smtp_port
        sender := config.smtp_sender
        sender_password := config.smtp_sender_password
        recipients := config.mailinglist }
    match post_receive env.git mailer env.stdin_lines config with
    | (emails, err) => (debug_log, emails, err)

/-- The source's `main` (renamed, since `main` is reserved): resolves the log
path and opens the log file OUTSIDE the `try`/`except` (a failure there
escapes unhandled, modelled as `.error`); inside, any raised error is caught,
a timestamp line and a diagnostic trace are appended to the log, and nothing
is re-raised.  `.ok` carries (log lines written, emails sent). -/
def main_run (env : Env) : Except String (List String × List Email) :=
  let log_file_path := git_config_get env.config_out POST_RECEIVE_LOGFILE ""
  if env.open_append_ok log_file_path then
    match main_body env with
    | (lg, es, none) => .ok (lg, es)
    | (lg, es, some e) =>
        .ok (lg ++ [env.strftime_now, "Traceback (most recent call last): " ++ e], es)
  else
    .error ("FileNotFoundError: cannot open " ++ log_file_path)

/-- Modelled from the spec: the external git metadata provider's rendering of
literal text in a `--pretty=format:` template.  Only the aspect the spec
relies on is modelled: the escape sequence `%%` renders as one literal `%`
character; any other character renders as itself.  (Directive substitution
for `%H`, `%s`, ... is outside this fragment; it never fires on an input in
which every `%` is doubled.) -/
def gitFmtRenderLiteral : List Char → List Char
  | [] => []
  | [c] => [c]
  | c1 :: c2 :: rest =>
    if c1 = '%' && c2 = '%' then '%' :: gitFmtRenderLiteral rest
    else c1 :: gitFmtRenderLiteral (c2 :: rest)

/-- Concrete git oracle whose ancestry query always answers "yes" (exit code
0) and whose range count is always 0; used to instantiate theorems. -/
def trivGit : Git :=
  { show_out := fun _ => ""
    show_format_out := fun _ _ => ""
    rev_list_pretty_out := fun _ _ => ""
    is_ancestor_code := fun _ _ => 0
    rev_list_count := fun _ _ => 0
    formatdate_now := "Sun, 12 Oct 2026 12:00:00 +0000" }

/-- Concrete git oracle with a fast-forward answer and a three-commit range. -/
def gitThree : Git :=
  { show_out := fun _ => ""
    show_format_out := fun _ _ => ""
    rev_list_pretty_out := fun _ _ => ""
    is_ancestor_code := fun _ _ => 0
    rev_list_count := fun _ _ => 3
    formatdate_now := "Sun, 12 Oct 2026 12:00:00 +0000" }

def someMailer : Mailer :=
  { smtp_host := "smtp.example.org"
    smtp_port := 465
    sender := "hook@example.org"
    sender_password := "pw"
    recipients := ["dev@example.org"] }

def emptyMailer : Mailer :=
  { smtp_host := "smtp.example.org"
    smtp_port := 465
    sender := "hook@example.org"
    sender_password := "pw"
    recipients := [] }

def someConfig : Config :=
  { email_pfx := ""
    debug := false
    logfile := "/var/log/hook.log"
    smtp_host := "smtp.example.org"
    smtp_port := 465
    smtp_sender := "hook@example.org"
    smtp_sender_password := "pw"
    mailinglist := ["dev@example.org"] }

/-- Config-lookup oracle with all four required keys set and every optional
key (in particular the log path) absent. -/
def lkRequiredOnly : String → String := fun name =>
  if name = SMTP_HOST then "smtp.example.org\n"
  else if name = SMTP_PORT then "465\n"
  else if name = SMTP_SENDER then "hook@example.org\n"
  else if name = SMTP_SENDER_PASSWORD then "pw\n"
  else ""

/-- Run environment in which no configuration key is set at all, over a POSIX
filesystem (opening the empty path for append fails). -/
def envCrash : Env :=
  { config_out := fun _ => ""
    open_append_ok := fun p => !p.isEmpty
    stdin_lines := []
    git := trivGit
    strftime_now := "2026-10-12 12:00:00" }

/-- Run environment whose log file opens fine but whose required SMTP keys
are missing, so the body raises a configuration error. -/
def envOkLog : Env :=
  { config_out := fun _ => ""
    open_append_ok := fun _ => true
    stdin_lines := []
    git := trivGit
    strftime_now := "2026-10-12 12:00:00" }

lemma mailer_send_nil {m : Mailer} (hm : m.recipients = []) (s r b : String) :
    m.send s r b = [] := by
  simp [Mailer.send, hm]

lemma render_escape (l : List Char) :
    gitFmtRenderLiteral (l.flatMap fun c => if c = '%' then ['%', '%'] else [c]) = l := by
  induction l with
  | nil => rfl
  | cons c l ih =>
    by_cases hc : c = '%'
    · subst hc
      simpa [gitFmtRenderLiteral] using ih
    · cases hfl : (l.flatMap fun c => if c = '%' then ['%', '%'] else [c]) with
      | nil =>
        rw [hfl] at ih
        simp [hc, hfl, gitFmtRenderLiteral, ← ih]
      | cons d t =>
        rw [hfl] at ih
        simp [hc, hfl, gitFmtRenderLiteral, ih]

lemma process_new_commits_fst_nil {m : Mailer} (hm : m.recipients = []) :
    ∀ (g : Git) (o n bn : String) (c : Config),
      (process_new_commits g o n bn m c).1 = [] := by
  intro g o n bn c
  simp only [process_new_commits]
  split
  · simp [mailer_send_nil hm]
  · split
    · simp [mailer_send_nil hm]
    · rfl

lemma process_commit_range_fst_nil {m : Mailer} (hm : m.recipients = []) :
    ∀ (g : Git) (o n bn : String) (c : Config),
      (process_commit_range g o n bn m c).1 = [] := by
  intro g o n bn c
  simp only [process_commit_range]
  split
  · rfl
  · exact process_new_commits_fst_nil hm g o n bn c
  · split
    · rfl
    · simp [process_forced_reset, mailer_send_nil hm]
    · simp [process_forced_unknown, mailer_send_nil hm]

lemma process_line_fst_nil {m : Mailer} (hm : m.recipients = []) :
    ∀ (g : Git) (o n r : String) (c : Config),
      (process_line g m o n r c).1 = [] := by
  intro g o n r c
  simp only [process_line]
  repeat' split
  all_goals
    simp [process_new_branch, process_delete_branch, process_new_tag,
          process_delete_tag, mailer_send_nil hm,
          process_commit_range_fst_nil hm]

/-- C1: for every update record whose ref kind is Tag and whose oldId and
newId are both non-dummy (an in-place tag update), the spec requires the
record to surface an error rather than be silently ignored.  The code does
NOT: evaluated at such a record it sends no email AND raises no error — the
record is silently dropped (the source's tag branch has no `else` arm). -/
theorem tag_inplace_update_is_silently_dropped :
    post_receive trivGit someMailer
      ["1111111111111111111111111111111111111111 2222222222222222222222222222222222222222 refs/tags/v1.0"]
      someConfig = ([], none) := by
  decide

/-- C2: a branch update with `oldId == newId` (both non-dummy) raises the
zero-change error `"process 0 new commits"` and sends no email: the
self-ancestry query answers yes (exit code 0) and the range count is 0, so
`process_new_commits` takes its error arm before any `send`. -/
theorem zero_change_branch_update_raises (g : Git) (m : Mailer) (c : Config)
    (line old refname : String)
    (hp : parse_post_receive_line line = [old, old, refname])
    (hr : str_starts_with refname "refs/heads/" = true)
    (hd : is_dummy_rev old = false)
    (ha : g.is_ancestor_code old old = 0)
    (hc : g.rev_list_count old old = 0) :
    post_receive g m [line] c = ([], some "process 0 new commits") := by
  simp [post_receive, hp, process_line, ref_type_name, hr, hd, process_commit_range,
        is_descendant_commit, ha, process_new_commits, num_commits_in_range, hc]

/-- Witness for C2 at the concrete record `aa aa refs/heads/main` with a git
oracle whose self-ancestry exit code is 0 and whose range count is 0. -/
theorem zero_change_branch_update_raises_witness :
    post_receive trivGit someMailer ["aa aa refs/heads/main"] someConfig
      = ([], some "process 0 new commits") :=
  zero_change_branch_update_raises trivGit someMailer someConfig
    "aa aa refs/heads/main" "aa" "refs/heads/main"
    (by decide) (by decide) (by decide) rfl rfl

/-- C4: dispatch of a branch update with both ids non-dummy.  The
fast-forward ancestry check `isAncestor(old, new)` is evaluated first: when
its exit code is 0 the record is handled by `process_new_commits` regardless
of the reverse check; otherwise, exit code 0 on `isAncestor(new, old)` routes
to `process_forced_reset`; otherwise to `process_forced_unknown`.  Exactly
one of the three handlers runs. -/
theorem branch_update_ancestry_dispatch (g : Git) (o n bn : String)
    (m : Mailer) (c : Config) :
    (g.is_ancestor_code o n = 0 →
       process_commit_range g o n bn m c = process_new_commits g o n bn m c) ∧
    (g.is_ancestor_code o n = 1 → g.is_ancestor_code n o = 0 →
       process_commit_range g o n bn m c
         = (process_forced_reset g o n bn m c, none)) ∧
    (g.is_ancestor_code o n = 1 → g.is_ancestor_code n o = 1 →
       process_commit_range g o n bn m c
         = (process_forced_unknown g o n bn m c, none)) := by
  refine ⟨fun h1 => ?_, fun h1 h2 => ?_, fun h1 h2 => ?_⟩
  · simp [process_commit_range, is_descendant_commit, h1]
  · simp [process_commit_range, is_descendant_commit, h1, h2]
  · simp [process_commit_range, is_descendant_commit, h1, h2]

/-- Witness for C4: with an oracle answering exit code 0 on the forward
check, the dispatch lands on `process_new_commits`. -/
theorem branch_update_ancestry_dispatch_witness :
    process_commit_range trivGit "aa" "bb" "main" someMailer someConfig
      = process_new_commits trivGit "aa" "bb" "main" someMailer someConfig :=
  (branch_update_ancestry_dispatch trivGit "aa" "bb" "main" someMailer someConfig).1 rfl

/-- C5: the spec says an absent `logPath` key defaults to a null-device
path.  The code discards that default: `git_config_get` declares a `default`
parameter that its body never reads, so with the key absent the resolved log
path is the empty string, both at the `get_config_variables` call site (which
passes `"/dev/null"`) and in `main` (which passes nothing). -/
theorem logpath_default_is_discarded :
    git_config_get lkRequiredOnly POST_RECEIVE_LOGFILE "/dev/null" = "" ∧
    (∃ cfg, get_config_variables lkRequiredOnly = .ok cfg
       ∧ cfg.logfile = "" ∧ cfg.logfile ≠ "/dev/null") := by
  refine ⟨rfl, ⟨_, rfl, rfl, by decide⟩⟩

/-- C3, counterexample: with no configuration key set, the log path resolves
to the empty string and `open(path, 'a')` — which sits OUTSIDE the
`try`/`except` of `main` — fails, so the error escapes the process boundary
unhandled, contradicting "every failure raised during a run is caught at the
top level". -/
theorem unhandled_error_escapes_main :
    main_run envCrash = .error "FileNotFoundError: cannot open " := rfl

/-- C3, amended: once the log file has been opened successfully, every
failure raised during the run (configuration errors, ancestry-query errors,
zero-change and malformed-line errors, transport errors) is caught by the
top-level handler and the run ends with `.ok`, never re-raising; moreover, on
the caught-error path the log written is exactly the log so far with a
timestamp line and a diagnostic-trace line appended, and on the clean path
the log is untouched.  Only a failure in resolving/opening the log file
itself, which happens before the handler, can escape. -/
theorem errors_after_log_open_are_caught (env : Env)
    (h : env.open_append_ok (git_config_get env.config_out POST_RECEIVE_LOGFILE "") = true) :
    ∃ lg es, main_run env = .ok (lg, es) ∧
      ((main_body env).2.2 = none →
         lg = (main_body env).1 ∧ es = (main_body env).2.1) ∧
      (∀ msg, (main_body env).2.2 = some msg →
         lg = (main_body env).1
            ++ [env.strftime_now, "Traceback (most recent call last): " ++ msg]
           ∧ es = (main_body env).2.1) := by
  rcases hb : main_body env with ⟨lg0, es0, err⟩
  cases err with
  | none =>
    refine ⟨lg0, es0, ?_, fun _ => ⟨rfl, rfl⟩, fun msg hmsg => ?_⟩
    · simp only [main_run, h, if_true, hb]
    · exact absurd hmsg (by simp)
  | some e =>
    refine ⟨lg0 ++ [env.strftime_now, "Traceback (most recent call last): " ++ e], es0,
            ?_, fun hnone => ?_, fun msg hmsg => ?_⟩
    · simp only [main_run, h, if_true, hb]
    · exact absurd hnone (by simp)
    · obtain rfl : e = msg := by simpa using hmsg
      exact ⟨rfl, rfl⟩

/-- Witness for the amended C3: an environment whose log file opens but whose
required SMTP keys are missing still ends with `.ok`, and the log written is
the (empty) debug log with the timestamp line and the diagnostic trace of the
configuration error appended. -/
theorem errors_after_log_open_are_caught_witness :
    envOkLog.open_append_ok (git_config_get envOkLog.config_out POST_RECEIVE_LOGFILE "") = true
      ∧ ∃ lg es, main_run envOkLog = .ok (lg, es) ∧
          ((main_body envOkLog).2.2 = none →
             lg = (main_body envOkLog).1 ∧ es = (main_body envOkLog).2.1) ∧
          (∀ msg, (main_body envOkLog).2.2 = some msg →
             lg = (main_body envOkLog).1
                ++ [envOkLog.strftime_now, "Traceback (most recent call last): " ++ msg]
               ∧ es = (main_body envOkLog).2.1) :=
  ⟨rfl, errors_after_log_open_are_caught envOkLog rfl⟩

/-- C6: normalization of the mail prefix (source lines 279-280): a non-empty
configured value not ending in a space gets exactly one space appended; a
value already ending in a space is returned unchanged (no doubling); the
unset/empty value stays the empty string. -/
theorem mail_pfx_normalization (s : String) :
    (s ≠ "" → s.back ≠ ' ' → normalize_mail_pfx s = s ++ " ") ∧
    (s.back = ' ' → normalize_mail_pfx s = s) ∧
    normalize_mail_pfx "" = "" := by
  refine ⟨fun h1 h2 => ?_, fun h1 => ?_, by decide⟩
  · simp [normalize_mail_pfx, h1, h2]
  · simp [normalize_mail_pfx, h1]

/-- Witness for C6: `[repo]` gains exactly one space; `[repo] ` is left
unchanged. -/
theorem mail_pfx_normalization_witness :
    normalize_mail_pfx "[repo]" = "[repo] " ∧ normalize_mail_pfx "[repo] " = "[repo] " :=
  ⟨(mail_pfx_normalization "[repo]").1 (by decide) (by decide),
   (mail_pfx_normalization "[repo] ").2.1 (by decide)⟩

/-- C9: with an empty recipient list, `Mailer.send` is a no-op for every
subject, reply-to and body (it returns before building the message or
touching the network), and consequently no update case of a whole
`post_receive` run delivers any email. -/
theorem empty_recipients_send_noop (m : Mailer) (hm : m.recipients = []) :
    (∀ s r b, m.send s r b = []) ∧
    (∀ (g : Git) (lines : List String) (c : Config),
       (post_receive g m lines c).1 = []) := by
  refine ⟨fun s r b => mailer_send_nil hm s r b, ?_⟩
  intro g lines c
  induction lines with
  | nil => rfl
  | cons line rest ih =>
    simp only [post_receive]
    split
    · rename_i old_rev new_rev ref_name heq
      have hline := process_line_fst_nil hm g old_rev new_rev ref_name c
      rcases hpl : process_line g m old_rev new_rev ref_name c with ⟨es, err⟩
      rw [hpl] at hline
      cases err with
      | none =>
        rcases hpr : post_receive g m rest c with ⟨es2, err2⟩
        rw [hpr] at ih
        simp_all
      | some e => simp_all
    · rfl

/-- Witness for C9: a mailer with no recipients sends nothing, both directly
and through a full run over one branch-update line. -/
theorem empty_recipients_send_noop_witness :
    emptyMailer.send "subject" "reply@example.org" "body" = [] ∧
    (post_receive trivGit emptyMailer ["aa bb refs/heads/main"] someConfig).1 = [] :=
  ⟨(empty_recipients_send_noop emptyMailer rfl).1 "subject" "reply@example.org" "body",
   (empty_recipients_send_noop emptyMailer rfl).2 trivGit ["aa bb refs/heads/main"] someConfig⟩

/-- C10: a line whose whitespace-split does not yield exactly three tokens
raises `ValueError` during unpacking: the line is not silently skipped (an
error is recorded), no email is sent for it, and the remaining lines `rest`
are never processed (the result is independent of `rest` and carries no
emails at all). -/
theorem malformed_line_raises (g : Git) (m : Mailer) (c : Config)
    (line : String) (rest : List String)
    (h : (parse_post_receive_line line).length ≠ 3) :
    ∃ msg, post_receive g m (line :: rest) c = ([], some msg) := by
  cases hx : parse_post_receive_line line with
  | nil => exact ⟨"ValueError: not enough values to unpack", by simp [post_receive, hx]⟩
  | cons a t =>
    cases t with
    | nil => exact ⟨"ValueError: not enough values to unpack", by simp [post_receive, hx]⟩
    | cons b t2 =>
      cases t2 with
      | nil => exact ⟨"ValueError: not enough values to unpack", by simp [post_receive, hx]⟩
      | cons d t3 =>
        cases t3 with
        | nil => exact absurd (by simp [hx]) h
        | cons e t4 =>
          refine ⟨"ValueError: too many values to unpack", ?_⟩
          have hlen : ¬((a :: b :: d :: e :: t4).length < 3) := by
            simp only [List.length_cons]
            omega
          simp [post_receive, hx, hlen]

/-- Witness for C10: the two-token line `aa refs/heads/main` aborts the run
with an error and no email. -/
theorem malformed_line_raises_witness :
    (parse_post_receive_line "aa refs/heads/main").length ≠ 3 ∧
    (∃ msg, post_receive trivGit someMailer
        ["aa refs/heads/main", "aa bb refs/heads/dev"] someConfig = ([], some msg)) :=
  ⟨by decide,
   malformed_line_raises trivGit someMailer someConfig "aa refs/heads/main"
     ["aa bb refs/heads/dev"] (by decide)⟩

/-- C7: for a fast-forwarded branch update the composed subject depends on
the commit count n of the range (old, new]: with n = 1 it is
`<pfx>(<name>) new commit <short(new)>: <subject(new)>`, with n > 1 it is
`<pfx>(<name>) <n> new commits <short(new)>: <subject(new)>`, and a range of
exactly 3 commits yields a subject containing `3 new commits`. -/
theorem fast_forward_subject_commit_count (g : Git) (o nv bn : String)
    (m : Mailer) (c : Config) (hm : m.recipients ≠ []) :
    (num_commits_in_range g o nv = 1 →
       ∃ e, (process_new_commits g o nv bn m c).1 = [e] ∧
         e.subject = c.email_pfx ++ "(" ++ bn ++ ") new commit "
           ++ short_hash nv ++ ": " ++ commit_subject g nv) ∧
    (∀ k, num_commits_in_range g o nv = k + 2 →
       ∃ e, (process_new_commits g o nv bn m c).1 = [e] ∧
         e.subject = c.email_pfx ++ "(" ++ bn ++ ") " ++ toString (k + 2)
           ++ " new commits " ++ short_hash nv ++ ": " ++ commit_subject g nv) ∧
    (num_commits_in_range g o nv = 3 →
       ∃ e s t, (process_new_commits g o nv bn m c).1 = [e] ∧
         e.subject = s ++ "3 new commits" ++ t) := by
  have hm' : m.recipients.isEmpty = false := by
    cases hl : m.recipients with
    | nil => exact absurd hl hm
    | cons a l => rfl
  refine ⟨fun h1 => ?_, fun k hk => ?_, fun h3 => ?_⟩
  · simp [process_new_commits, h1, Mailer.send, hm']
  · have hk1 : ¬(k + 2 = 1) := by omega
    have hk0 : 0 < k + 2 := by omega
    simp [process_new_commits, hk, hk1, hk0, Mailer.send, hm']
  · have hlist : (process_new_commits g o nv bn m c).1
        = [{ sender := m.sender
             reply_to := commiter_email g nv
             to_header := String.intercalate ", " m.recipients
             subject := c.email_pfx ++ "(" ++ bn ++ ") " ++ toString (3 : Nat)
               ++ " new commits " ++ short_hash nv ++ ": " ++ commit_subject g nv
             content := git_rev_list_range_pretty g o nv }] := by
      simp [process_new_commits, h3, Mailer.send, hm']
    refine ⟨_, c.email_pfx ++ "(" ++ bn ++ ") ",
            " " ++ short_hash nv ++ ": " ++ commit_subject g nv, hlist, ?_⟩
    show c.email_pfx ++ "(" ++ bn ++ ") " ++ toString (3 : Nat) ++ " new commits "
        ++ short_hash nv ++ ": " ++ commit_subject g nv
      = c.email_pfx ++ "(" ++ bn ++ ") " ++ "3 new commits"
        ++ (" " ++ short_hash nv ++ ": " ++ commit_subject g nv)
    have lit : (toString (3 : Nat)) ++ " new commits " = "3 new commits" ++ " " := by decide
    simp only [String.append_assoc]
    rw [← String.append_assoc (toString (3 : Nat)) " new commits ", lit,
        String.append_assoc]

/-- Witness for C7 at a git oracle whose range count is 3: the subject
contains `3 new commits`. -/
theorem fast_forward_subject_commit_count_witness :
    ∃ e s t, (process_new_commits gitThree "aa" "bb" "main" someMailer someConfig).1 = [e]
      ∧ e.subject = s ++ "3 new commits" ++ t :=
  (fast_forward_subject_commit_count gitThree "aa" "bb" "main" someMailer someConfig
    (by decide)).2.2 rfl

/-- C8: a branch or tag name containing a literal `%` is passed through
`escape_git_fmt_str` (every `%` doubled) before interpolation into the
commit-metadata format template, and rendering the escaped name under the
git formatter's `%%`-escape rule yields the original name literally — no
character of it can act as a format directive.  The second conjunct exhibits
the template `process_new_branch` hands to the metadata provider, with the
escaped name interpolated between two literal chunks. -/
theorem percent_in_name_escaped (name : String) (h : '%' ∈ name.data) :
    gitFmtRenderLiteral (escape_git_fmt_str name).data = name.data ∧
    (∃ pre post, new_branch_fmt name = pre ++ escape_git_fmt_str name ++ post) := by
  refine ⟨render_escape name.data,
          "Commiter: %cn <%ce>\nDate: %cD\nNew branch: ",
          "\nCommit: %H\nSubject: %s\nNotes:\n%N", rfl⟩

/-- Witness for C8 at the name `dev%ops`. -/
theorem percent_in_name_escaped_witness :
    '%' ∈ "dev%ops".data ∧
    (gitFmtRenderLiteral (escape_git_fmt_str "dev%ops").data = "dev%ops".data ∧
     ∃ pre post, new_branch_fmt "dev%ops" = pre ++ escape_git_fmt_str "dev%ops" ++ post) :=
  ⟨by decide, percent_in_name_escaped "dev%ops" (by decide)⟩
